import Mathlib

/-!
Verification of the feature-derivation and app-level error-handling logic of
the CardioAi application (src/app.py), via a shallow embedding in Lean 4.

The embedding follows the source:
  * `preprocess_input` (src/app.py lines 32-76): builds a one-row pandas
    DataFrame with eleven raw columns and appends three engineered columns
    (bmi, bp_diff, age_ap_hi).  We model the one-row DataFrame as an
    association list from column labels to rational values, kept in the
    exact column-insertion order of the source.
  * `load_model` (lines 21-30): wraps pickle loading in try/except and
    returns None on any failure.  We model the outcome of the pickle load
    as an explicit sum and `load_model` as the catch-to-Option wrapper.
  * the predict branch of the app (lines 163-222): checks the model for
    None, preprocesses, calls predict then predict_proba inside a
    try/except, and renders either a result card, a prediction error, or
    the "Model unavailable." message.
-/

namespace CardioAi

/-- Column labels of the one-row DataFrame built by `preprocess_input`.
The first eleven are the raw columns of src/app.py lines 51-63; the last
three are the engineered columns added at lines 67, 70 and 74. -/
inductive Col where
  | age
  | gender
  | height
  | weight
  | ap_hi
  | ap_lo
  | cholesterol
  | gluc
  | smoke
  | alco
  | active
  | bmi
  | bp_diff
  | age_ap_hi
deriving DecidableEq, Repr

/-- The eleven raw arguments of `preprocess_input` (src/app.py line 32).
Numeric values are modelled as rationals; the UI restricts them to
integers in clinical ranges, but the function itself accepts anything. -/
structure RawInput where
  age : ℚ
  gender : ℚ
  height : ℚ
  weight : ℚ
  ap_hi : ℚ
  ap_lo : ℚ
  cholesterol : ℚ
  gluc : ℚ
  smoke : ℚ
  alco : ℚ
  active : ℚ
deriving DecidableEq, Repr

/-- Python `int(x)`: truncation toward zero. -/
def int_trunc (q : ℚ) : ℤ :=
  if 0 ≤ q then ⌊q⌋ else ⌈q⌉

/-- The one-row DataFrame: column labels paired with their single value,
in column order. -/
abbrev FeatureVector := List (Col × ℚ)

/-- Value of a column in the DataFrame: the first binding for the label,
as pandas column lookup. -/
def getCol (c : Col) : FeatureVector → Option ℚ
  | [] => none
  | (c2, v) :: rest => if c2 = c then some v else getCol c rest

/-- `preprocess_input` (src/app.py lines 32-76).
Line 39: `age_days = int(age * 365.25)`.
Lines 51-63: DataFrame with the eleven raw columns, `age` holding
`age_days`.
Line 67: `bmi = weight / ((height / 100) ** 2)`.
Line 70: `bp_diff = ap_hi - ap_lo`.
Line 74: `age_ap_hi = age * ap_hi`, where the `age` column is in days. -/
def preprocess_input (i : RawInput) : FeatureVector :=
  let age_days : ℤ := int_trunc (i.age * 365.25)
  let base : FeatureVector :=
    [(Col.age, (age_days : ℚ)),
     (Col.gender, i.gender),
     (Col.height, i.height),
     (Col.weight, i.weight),
     (Col.ap_hi, i.ap_hi),
     (Col.ap_lo, i.ap_lo),
     (Col.cholesterol, i.cholesterol),
     (Col.gluc, i.gluc),
     (Col.smoke, i.smoke),
     (Col.alco, i.alco),
     (Col.active, i.active)]
  base ++
    [(Col.bmi, i.weight / ((i.height / 100) ^ 2)),
     (Col.bp_diff, i.ap_hi - i.ap_lo),
     (Col.age_ap_hi, (age_days : ℚ) * i.ap_hi)]

/-- The loaded classifier artifact (duck-typed in the source): a
`predict` method returning the single-row class label and a
`predict_proba` method returning the pair of class probabilities
`[p_class0, p_class1]`.  Either call may raise in Python; a raise is
modelled as `Except.error` carrying the exception message. -/
structure Model where
  predict : FeatureVector → Except String ℤ
  predict_proba : FeatureVector → Except String (ℚ × ℚ)

/-- The outcome of attempting `pickle.load` on the artifact file
(src/app.py line 26): either a model object, or an exception with its
message (missing file, corrupt data, ...). -/
inductive PickleOutcome where
  | ok (m : Model)
  | raised (e : String)

/-- `load_model` (src/app.py lines 21-30): try/except around the pickle
load; any exception is caught (displayed via st.error) and `None` is
returned. -/
def load_model : PickleOutcome → Option Model
  | PickleOutcome.ok m => some m
  | PickleOutcome.raised _ => none

/-- The risk label chosen at src/app.py lines 180-189: high when the
predicted class equals 1, low otherwise. -/
inductive RiskLabel where
  | high
  | low
deriving DecidableEq, Repr

/-- What the predict branch of the app renders for one request. -/
inductive Outcome where
  | resultCard (label : RiskLabel) (probability : ℚ)
  | predictionFailure (e : String)
  | modelUnavailable
deriving DecidableEq

/-- The predict branch of the app (src/app.py lines 163-222), for one
button press, given the outcome of the pickle load and the raw inputs:
line 165 loads the model; line 167 checks it for None (else branch at
line 222 renders "Model unavailable."); line 169 preprocesses; inside the
try at line 173, line 175 calls `model.predict(input_df)[0]` and line 176
calls `model.predict_proba(input_df)[0][1]`; any exception lands at line
218 and is displayed as "Prediction logic error: ..."; otherwise lines
180-207 render the result card with the chosen label and the class-1
probability. -/
def run_predict_branch (pk : PickleOutcome) (i : RawInput) : Outcome :=
  match load_model pk with
  | none => Outcome.modelUnavailable
  | some model =>
    let input_df := preprocess_input i
    match model.predict input_df with
    | Except.error e => Outcome.predictionFailure e
    | Except.ok prediction =>
      match model.predict_proba input_df with
      | Except.error e => Outcome.predictionFailure e
      | Except.ok proba =>
        let probability := proba.2
        if prediction = 1 then
          Outcome.resultCard RiskLabel.high probability
        else
          Outcome.resultCard RiskLabel.low probability

/-! ## Theorems -/

/-- C1: For every age_years in [20,100], the derived age column (holding
age in days, src/app.py line 39) equals floor(age_years * 365.25)
exactly — truncated toward zero, which for these positive ages coincides
with the floor, never rounded or ceiled. -/
theorem age_days_is_floor (i : RawInput) (n : ℤ) (hage : i.age = (n : ℚ))
    (h1 : 20 ≤ n) (h2 : n ≤ 100) :
    getCol Col.age (preprocess_input i) =
      some ((⌊(n : ℚ) * 365.25⌋ : ℤ) : ℚ) := by
  have hn : (0 : ℚ) ≤ (n : ℚ) := by exact_mod_cast le_trans (by norm_num) h1
  have h0 : (0 : ℚ) ≤ (n : ℚ) * 365.25 := by positivity
  simp only [preprocess_input, getCol, int_trunc, hage, h0, if_true, if_pos]

/-- Witness for C1 at the spec's example: age_years = 50 yields
age_days = 18262, since 50 * 365.25 = 18262.5 truncates to 18262. -/
theorem age_days_is_floor_witness :
    getCol Col.age (preprocess_input ⟨50, 2, 165, 70, 120, 80, 1, 1, 0, 0, 1⟩) =
      some ((18262 : ℤ) : ℚ) := by
  have h := age_days_is_floor ⟨50, 2, 165, 70, 120, 80, 1, 1, 0, 0, 1⟩ 50
    (by norm_num) (by norm_num) (by norm_num)
  rw [h]
  norm_num

/-- C2: for every input, the produced one-row DataFrame has exactly 14
columns in the fixed order age (days), gender, height, weight, ap_hi,
ap_lo, cholesterol, gluc, smoke, alco, active, bmi, bp_diff, age_ap_hi
(src/app.py lines 51-74), regardless of input values. -/
theorem feature_vector_schema (i : RawInput) :
    (preprocess_input i).map Prod.fst =
      [Col.age, Col.gender, Col.height, Col.weight, Col.ap_hi, Col.ap_lo,
       Col.cholesterol, Col.gluc, Col.smoke, Col.alco, Col.active,
       Col.bmi, Col.bp_diff, Col.age_ap_hi] ∧
    (preprocess_input i).length = 14 :=
  ⟨rfl, rfl⟩

/-- C3: for every input, the age_ap_hi column equals the day-denominated
(already converted) age times the systolic pressure (src/app.py line 74);
for nonnegative ages the converted age is floor(age_years * 365.25). -/
theorem interaction_uses_age_days (i : RawInput) :
    getCol Col.age_ap_hi (preprocess_input i) =
      some ((int_trunc (i.age * 365.25) : ℚ) * i.ap_hi) ∧
    (0 ≤ i.age →
      getCol Col.age_ap_hi (preprocess_input i) =
        some (((⌊i.age * 365.25⌋ : ℤ) : ℚ) * i.ap_hi)) := by
  refine ⟨rfl, fun h => ?_⟩
  have h0 : (0 : ℚ) ≤ i.age * 365.25 := by positivity
  simp only [preprocess_input, getCol, int_trunc, h0, if_true, if_pos]
  rfl

/-- Witness for C3 at the spec's example: age_years = 50 and
systolic_bp = 120 yield 18262 * 120 = 2191440. -/
theorem interaction_uses_age_days_witness :
    getCol Col.age_ap_hi (preprocess_input ⟨50, 2, 165, 70, 120, 80, 1, 1, 0, 0, 1⟩) =
      some (2191440 : ℚ) := by
  have h := (interaction_uses_age_days ⟨50, 2, 165, 70, 120, 80, 1, 1, 0, 0, 1⟩).2
    (by norm_num)
  rw [h]
  norm_num

/-- C4: for every valid (nonzero) height, the bmi column equals
weight_kg / (height_cm / 100)^2 — height converted centimeters to meters
before squaring (src/app.py line 67), with no clamping. -/
theorem bmi_formula (i : RawInput) (h : i.height ≠ 0) :
    getCol Col.bmi (preprocess_input i) =
      some (i.weight / (i.height / 100) ^ 2) :=
  rfl

/-- Witness for C4 at the spec's example: height = 165, weight = 70
yields bmi = 28000/1089 ≈ 25.71. -/
theorem bmi_formula_witness :
    getCol Col.bmi (preprocess_input ⟨50, 2, 165, 70, 120, 80, 1, 1, 0, 0, 1⟩) =
      some (28000 / 1089 : ℚ) := by
  have h := bmi_formula ⟨50, 2, 165, 70, 120, 80, 1, 1, 0, 0, 1⟩ (by norm_num)
  rw [h]
  norm_num

/-- C5: for every input, the bp_diff column equals ap_hi - ap_lo exactly
(src/app.py line 70), including when the difference is negative — shown
at the spec's example ap_hi = 80, ap_lo = 90, which yields -10 with no
clamping to be non-negative. -/
theorem pulse_pressure_not_clamped (i : RawInput) :
    getCol Col.bp_diff (preprocess_input i) = some (i.ap_hi - i.ap_lo) ∧
    getCol Col.bp_diff (preprocess_input ⟨50, 1, 165, 70, 80, 90, 1, 1, 0, 0, 1⟩) =
      some (-10 : ℚ) := by
  refine ⟨rfl, ?_⟩
  show some ((80 : ℚ) - 90) = some (-10 : ℚ)
  norm_num

/-- C6: the boundary input age = 20, sex = female(1), height = 100,
weight = 30, systolic = 80, diastolic = 40, cholesterol = 1, gluc = 1,
smoke = 0, alco = 0, active = 1 produces a full (finite, non-error)
14-column vector with bmi = 30, bp_diff = 40, age = 7305 days and
age_ap_hi = 584400. -/
theorem boundary_scenario :
    preprocess_input ⟨20, 1, 100, 30, 80, 40, 1, 1, 0, 0, 1⟩ =
      [(Col.age, 7305), (Col.gender, 1), (Col.height, 100), (Col.weight, 30),
       (Col.ap_hi, 80), (Col.ap_lo, 40), (Col.cholesterol, 1), (Col.gluc, 1),
       (Col.smoke, 0), (Col.alco, 0), (Col.active, 1), (Col.bmi, 30),
       (Col.bp_diff, 40), (Col.age_ap_hi, 584400)] := by
  simp only [preprocess_input, int_trunc, List.cons_append, List.nil_append]
  norm_num

/-- C7: the deriver raises no error on any input: it is a total pure
function — every one of the 14 columns is present for every input, with
no validation — and on out-of-domain input (here weight = -70) it still
returns a vector, silently computing a nonsensical negative bmi. -/
theorem deriver_total_no_validation :
    (∀ (i : RawInput) (c : Col), getCol c (preprocess_input i) ≠ none) ∧
    (∃ q : ℚ,
      getCol Col.bmi (preprocess_input ⟨50, 1, 165, -70, 120, 80, 1, 1, 0, 0, 1⟩) =
        some q ∧ q < 0) := by
  constructor
  · intro i c
    cases c <;> simp [preprocess_input, getCol]
  · refine ⟨(-70 : ℚ) / ((165 / 100) ^ 2), rfl, by norm_num⟩

/-- C8: when the pickle load raises (nonexistent or corrupt model file),
load_model catches it and returns None (src/app.py lines 24-30), the
classifier is never called, and the predict branch renders the
"Model unavailable." state (line 222) instead of propagating the
exception. -/
theorem load_failure_reports_unavailable (e : String) (i : RawInput) :
    run_predict_branch (PickleOutcome.raised e) i = Outcome.modelUnavailable :=
  rfl

/-- C9: if the classifier call raises for any reason — on predict (line
175) or on predict_proba (line 176) — the exception is caught by the
try/except at lines 173-218 and displayed as a prediction failure with
the exception message; the failure is terminal for the request, with no
retry and no partial result card. -/
theorem classifier_raise_is_caught (m : Model) (i : RawInput) (e : String) :
    (m.predict (preprocess_input i) = Except.error e →
      run_predict_branch (PickleOutcome.ok m) i = Outcome.predictionFailure e) ∧
    (∀ p : ℤ, m.predict (preprocess_input i) = Except.ok p →
      m.predict_proba (preprocess_input i) = Except.error e →
      run_predict_branch (PickleOutcome.ok m) i = Outcome.predictionFailure e) := by
  constructor
  · intro h
    simp [run_predict_branch, load_model, h]
  · intro p h1 h2
    simp [run_predict_branch, load_model, h1, h2]

/-- Witness for C9: a model whose predict call raises yields the
prediction-failure outcome carrying that message. -/
theorem classifier_raise_is_caught_witness :
    run_predict_branch
      (PickleOutcome.ok
        ⟨fun _ => Except.error ("boom"), fun _ => Except.ok (0, 0)⟩)
      ⟨50, 1, 165, 70, 120, 80, 1, 1, 0, 0, 1⟩ =
      Outcome.predictionFailure ("boom") :=
  (classifier_raise_is_caught
    ⟨fun _ => Except.error ("boom"), fun _ => Except.ok (0, 0)⟩
    ⟨50, 1, 165, 70, 120, 80, 1, 1, 0, 0, 1⟩ ("boom")).1 rfl

/-- C10: whenever both classifier calls succeed, the rendered probability
is always the class-1 (high-risk) entry predict_proba(...)[0][1]
(src/app.py line 176), regardless of which risk label is rendered. -/
theorem displayed_probability_is_class1 (m : Model) (i : RawInput)
    (p : ℤ) (pr : ℚ × ℚ)
    (h1 : m.predict (preprocess_input i) = Except.ok p)
    (h2 : m.predict_proba (preprocess_input i) = Except.ok pr) :
    run_predict_branch (PickleOutcome.ok m) i =
      Outcome.resultCard (if p = 1 then RiskLabel.high else RiskLabel.low) pr.2 := by
  simp only [run_predict_branch, load_model, h1, h2]
  by_cases hp : p = 1 <;> simp [hp]

/-- Witness for C10: a model predicting class 0 (low risk) with
probabilities (0.51, 0.49) renders the low-risk card showing 0.49 — the
probability of being high risk, not of the predicted low-risk class. -/
theorem displayed_probability_is_class1_witness :
    run_predict_branch
      (PickleOutcome.ok
        ⟨fun _ => Except.ok 0, fun _ => Except.ok (51 / 100, 49 / 100)⟩)
      ⟨50, 1, 165, 70, 120, 80, 1, 1, 0, 0, 1⟩ =
      Outcome.resultCard RiskLabel.low (49 / 100 : ℚ) := by
  have h := displayed_probability_is_class1
    ⟨fun _ => Except.ok 0, fun _ => Except.ok (51 / 100, 49 / 100)⟩
    ⟨50, 1, 165, 70, 120, 80, 1, 1, 0, 0, 1⟩ 0 (51 / 100, 49 / 100) rfl rfl
  simpa using h

end CardioAi
